import Mathlib

/-!
Verification development for a line-oriented pattern-search tool
(a small grep-like utility, `src/main.rs`).

The program reads a file line by line, classifies each line as a hit or not
(literal substring mode `-F` or escaped-regex mode, case-insensitive `-i`,
inverted `-v`), and then either prints the number of hits (`-c`) or prints
each hit followed by context lines taken — crucially — from the vector of
*matching lines only*, sliced by original line numbers.

The embedding below follows the source function by function:
* `Options` mirrors the `Options` struct (`Default` gives zeros/false).
* `matchedLine` mirrors the per-line match test: in fixed mode a plain
  case-sensitive `line.contains(pattern)`; otherwise a regex built from
  `(?i)?` + `regex::escape(pattern)`.  An escaped pattern is a literal, so
  `Regex::is_match` is substring containment, case-insensitively when the
  `(?i)` flag is present; `regexIsMatch` models exactly that (ASCII folding
  via `Char.toLower`, which covers every input the claims exercise).
* `matchingLines` mirrors the read loop's accumulation of `(line_number, line)`
  pairs after applying inversion.
* `grepRun` mirrors `grep`: open the source, read/decode every line (both
  fallible), then — and only then — print.  Output is modelled as a trace of
  `OutputLine`s; the `-n` flag changes only the rendering of a `text` entry
  (`"<idx+1>: <content>"` instead of `"<content>"`), which the trace keeps
  in structured form.  Rust's slice expression `matching_lines[start..end]`
  panics when `end` exceeds the vector length; `emitContext` models that
  panic as `none`, and `emitHits` stops the trace at the point of the panic
  (the hit line itself has already been printed when the slice is taken).
* `parseOptions` mirrors the option loop of `main` over `args[3..]`.
-/

/-- Mirror of the Rust `Options` struct. -/
structure Options where
  after : Nat
  before : Nat
  context : Nat
  count : Bool
  ignore_case : Bool
  invert : Bool
  fixed : Bool
  number : Bool
deriving DecidableEq

/-- `Options::default()`: all counters zero, all flags false. -/
def defaultOptions : Options :=
  { after := 0, before := 0, context := 0, count := false,
    ignore_case := false, invert := false, fixed := false, number := false }

/-- `pat` occurs at the very start of `hay` (helper for substring search). -/
def leadsWith : List Char → List Char → Bool
  | [], _ => true
  | _ :: _, [] => false
  | p :: ps, h :: hs => p == h && leadsWith ps hs

/-- Substring containment on character lists: models Rust `str::contains`
with a string pattern (true iff `pat` occurs contiguously in `hay`). -/
def containsSub (hay pat : List Char) : Bool :=
  match hay with
  | [] => pat.isEmpty
  | _ :: t => leadsWith pat hay || containsSub t pat

/-- ASCII case folding, modelling the regex engine's `(?i)` flag on the
inputs the program sees. -/
def foldCase (s : List Char) : List Char := s.map Char.toLower

/-- Model of `Regex::new(flags ++ regex::escape(pattern)).is_match(line)`:
`regex::escape` turns the pattern into a literal, so matching is substring
containment, case-insensitive exactly when the `(?i)` flag was prepended. -/
def regexIsMatch (ic : Bool) (pattern line : String) : Bool :=
  if ic then containsSub (foldCase line.toList) (foldCase pattern.toList)
  else containsSub line.toList pattern.toList

/-- The per-line match test of `grep`: fixed mode uses `line.contains(pattern)`
directly (note: without any case folding), otherwise the escaped regex. -/
def matchedLine (opts : Options) (pattern line : String) : Bool :=
  if opts.fixed then containsSub line.toList pattern.toList
  else regexIsMatch opts.ignore_case pattern line

/-- The hit decision after inversion: the code pushes the line when
`invert` is set and the line did not match, or `invert` is unset and it did. -/
def hitDecision (opts : Options) (pattern line : String) : Bool :=
  let matched := matchedLine opts pattern line
  if opts.invert then !matched else matched

/-- The `matching_lines` vector built by the read loop: the enumerated lines
(0-based, as `enumerate` yields) that pass the hit decision. -/
def matchingLines (opts : Options) (pattern : String) (lines : List String) :
    List (Nat × String) :=
  lines.enum.filter fun e => hitDecision opts pattern e.2

/-- Errors that make `grep` return `Err` (propagated with `?` in the source).
`Regex::new` on an escaped pattern cannot fail, so the fallible steps are
opening the file and decoding each line. -/
inductive GrepError
  | sourceUnavailable
  | lineReadError
deriving DecidableEq

/-- How one invocation of `grep` ends: normal return, a slice-bounds panic
in the context-printing loop, or an `Err` return. -/
inductive RunStatus
  | ok
  | panicked
  | err (e : GrepError)
deriving DecidableEq

/-- One `println!` to standard output.  A `text` entry renders as
`"<content>"`, or `"<idx+1>: <content>"` when `-n` is set; a `count` entry
renders the number. -/
inductive OutputLine
  | text (idx : Nat) (content : String)
  | count (n : Nat)
deriving DecidableEq

/-- Decode the stream of line-read results (`reader.lines()`); `none` is an
I/O/UTF-8 error, which `line?` turns into an early `Err` return. -/
def readLines : List (Option String) → Except GrepError (List String)
  | [] => .ok []
  | none :: _ => .error .lineReadError
  | some l :: rest => (readLines rest).map (l :: ·)

/-- The context block printed after one hit at original line number `ln`:
the code slices `matching_lines[start..end]` with
`start = ln.saturating_sub(before)` and `end = ln + 1 + after`, then prints
every sliced entry whose line number differs from `ln`.  The slice panics
(`none`) when the range is ill-formed or `end` exceeds the vector length. -/
def emitContext (opts : Options) (ml : List (Nat × String)) (ln : Nat) :
    Option (List OutputLine) :=
  if opts.after > 0 || opts.before > 0 then
    let s := ln - opts.before
    let e := ln + 1 + opts.after
    if s ≤ e ∧ e ≤ ml.length then
      some ((((ml.drop s).take (e - s)).filter fun c => c.1 != ln).map
        fun c => OutputLine.text c.1 c.2)
    else none
  else some []

/-- The non-count printing loop over `matching_lines`: each hit line is
printed first, then its context block; a slice panic aborts the loop with
the hit line already printed.  Returns the trace and whether it panicked. -/
def emitHits (opts : Options) (ml : List (Nat × String)) :
    List (Nat × String) → List OutputLine × Bool
  | [] => ([], false)
  | (ln, line) :: rest =>
    match emitContext opts ml ln with
    | none => ([OutputLine.text ln line], true)
    | some ctx =>
      let r := emitHits opts ml rest
      (OutputLine.text ln line :: (ctx ++ r.1), r.2)

/-- One invocation of `grep`.  `src = none` models `File::open` failing;
otherwise `src` carries each line-read result.  Returns the full stdout
trace and how the call ended. -/
def grepRun (src : Option (List (Option String))) (pattern : String)
    (opts : Options) : List OutputLine × RunStatus :=
  match src with
  | none => ([], .err .sourceUnavailable)
  | some lineResults =>
    match readLines lineResults with
    | .error e => ([], .err e)
    | .ok lines =>
      let ml := matchingLines opts pattern lines
      if opts.count then ([OutputLine.count ml.length], .ok)
      else
        let r := emitHits opts ml ml
        (r.1, if r.2 then RunStatus.panicked else RunStatus.ok)

/-- Model of `str::parse::<usize>().unwrap_or(0)` on the flags' numeric
suffix: a non-empty all-digit string parses to its value, anything else
falls back to 0.  (Rust additionally accepts a leading `+` and rejects
values above `usize::MAX`; no claim exercises either.) -/
def parseUsize (s : List Char) : Nat :=
  if s.isEmpty then 0
  else if s.all (fun c => c.isDigit) then
    s.foldl (fun acc c => acc * 10 + (c.toNat - 48)) 0
  else 0

/-- `str::starts_with`, as containment of the flag text at the front of the
argument's character list. -/
def startsWithL (s pre : String) : Bool := leadsWith pre.toList s.toList

/-- One iteration of `main`'s option loop: the match arms in source order.
An unknown option prints a warning to stderr and leaves the options
unchanged. -/
def applyArg (opts : Options) (arg : String) : Options :=
  if startsWithL arg "-A" then { opts with after := parseUsize (arg.toList.drop 2) }
  else if startsWithL arg "-B" then { opts with before := parseUsize (arg.toList.drop 2) }
  else if startsWithL arg "-C" then { opts with context := parseUsize (arg.toList.drop 2) }
  else if arg = "-c" then { opts with count := true }
  else if arg = "-i" then { opts with ignore_case := true }
  else if arg = "-v" then { opts with invert := true }
  else if arg = "-F" then { opts with fixed := true }
  else if arg = "-n" then { opts with number := true }
  else opts

/-- The options produced by `main` from `args[3..]`, starting from
`Options::default()`. -/
def parseOptions (args : List String) : Options :=
  args.foldl applyArg defaultOptions

/-- The original line indices of the text entries of a trace, in print
order (count entries carry no index). -/
def textIndices (out : List OutputLine) : List Nat :=
  out.filterMap fun o =>
    match o with
    | OutputLine.text i _ => some i
    | OutputLine.count _ => none

/-! Shared lemmas. -/

/-- The empty pattern is a substring of every character list. -/
lemma containsSub_nil (hay : List Char) : containsSub hay [] = true := by
  induction hay with
  | nil => rfl
  | cons h t ih => simp [containsSub, leadsWith, ih]

/-- The empty pattern matches every line under every configuration. -/
lemma matchedLine_empty (opts : Options) (l : String) :
    matchedLine opts "" l = true := by
  cases hf : opts.fixed <;> cases hi : opts.ignore_case <;>
    simp [matchedLine, regexIsMatch, hf, hi, containsSub_nil, foldCase,
      String.toList]

/-! Claim theorems. -/

/-- C1: the spec says context around a hit is read from the global line
buffer, so lines `["a","b","c","d","e"]` with pattern `"c"` and `-B1 -A1`
ought to print `"b","c","d"`.  The code instead slices the matched-lines
vector by original line numbers: on this input it prints only the hit line
`"c"` and then panics taking `matching_lines[1..4]` of a length-1 vector. -/
theorem c1_context_taken_from_matched_lines :
    grepRun (some [some "a", some "b", some "c", some "d", some "e"]) "c"
        { defaultOptions with before := 1, after := 1 }
      = ([OutputLine.text 2 "c"], RunStatus.panicked) := by decide

/-- C2: the claim says each line index appears at most once in non-count
output.  On lines `["a","b"]` with the empty fixed pattern (both lines hit)
and `-B1`, the code prints index 0 twice: once as a hit and once as context
of the second hit. -/
theorem c2_duplicate_output_index :
    textIndices (grepRun (some [some "a", some "b"]) ""
        { defaultOptions with fixed := true, before := 1 }).1 = [0, 1, 0] ∧
    ¬ List.Nodup (textIndices (grepRun (some [some "a", some "b"]) ""
        { defaultOptions with fixed := true, before := 1 }).1) := by decide

/-- C3: the claim says printed line indices are strictly ascending.  On
lines `["p","q"]` with the empty fixed pattern and `-B1` the code prints
the index sequence 0, 1, 0, which is not ascending. -/
theorem c3_output_order_violated :
    textIndices (grepRun (some [some "p", some "q"]) ""
        { defaultOptions with fixed := true, before := 1 }).1 = [0, 1, 0] ∧
    ¬ List.Pairwise (fun i j => i < j)
      (textIndices (grepRun (some [some "p", some "q"]) ""
        { defaultOptions with fixed := true, before := 1 }).1) := by decide

/-- C4: the claim says `-C<N>` sets both the before- and after-context
counts to N.  The code parses `-C1` into the `context` field only, which no
other code reads: `before` and `after` stay 0, the run emits no context,
and the result differs from the `-B1 -A1` run on the same input. -/
theorem c4_context_flag_has_no_effect :
    (parseOptions ["-C1"]).before = 0 ∧ (parseOptions ["-C1"]).after = 0 ∧
    (parseOptions ["-C1"]).context = 1 ∧
    grepRun (some [some "a", some "b"]) "a" (parseOptions ["-C1"])
      = ([OutputLine.text 0 "a"], RunStatus.ok) ∧
    grepRun (some [some "a", some "b"]) "a"
        { defaultOptions with before := 1, after := 1 }
      ≠ grepRun (some [some "a", some "b"]) "a" (parseOptions ["-C1"]) := by
  decide

/-- C5: the claim says that with `-F -i` case folding is applied to both
sides before the containment test, so `"AN"` matches `"Banana"`.  In fixed
mode the code calls case-sensitive `line.contains(pattern)` and never
consults `ignore_case`, so `"AN"` does not match `"Banana"`; the folding
only happens on the non-fixed (regex) path. -/
theorem c5_fixed_mode_skips_case_folding :
    matchedLine { defaultOptions with fixed := true, ignore_case := true }
        "AN" "Banana" = false ∧
    regexIsMatch true "AN" "Banana" = true := by decide

/-- C6: for every configuration, pattern and line, the hit decision with
inversion enabled is the boolean negation of the hit decision with
inversion disabled and all other options equal. -/
theorem c6_inversion_duality (opts : Options) (p l : String) :
    hitDecision { opts with invert := true } p l
      = !(hitDecision { opts with invert := false } p l) := by
  cases opts; rfl

/-- C7: the claim says windows are clipped to the buffer bounds and output
production never fails for in-range hits near the edges.  On the one-line
file `["a"]` with pattern `"a"` and `-A1` the code prints the hit and then
panics: the slice end `0 + 1 + 1 = 2` exceeds the matched-lines vector
length 1 (only the start of the range is saturated, the end is not). -/
theorem c7_edge_window_panics :
    grepRun (some [some "a"]) "a" { defaultOptions with after := 1 }
      = ([OutputLine.text 0 "a"], RunStatus.panicked) := by decide

/-- C8: with the count flag set, the only output of a successful run is the
cardinality of the hit set, and the context-window counts have no effect on
the run at all. -/
theorem c8_count_mode (lrs : List (Option String)) (p : String)
    (opts : Options) (hc : opts.count = true) :
    (∀ lines, readLines lrs = Except.ok lines →
      (grepRun (some lrs) p opts).1
        = [OutputLine.count (matchingLines opts p lines).length]) ∧
    (∀ b a, grepRun (some lrs) p opts
      = grepRun (some lrs) p { opts with before := b, after := a }) := by
  constructor
  · intro lines h
    unfold grepRun
    dsimp only
    rw [h]
    simp [hc]
  · intro b a
    cases opts with
    | mk af bf cf co ic iv fx nu =>
      dsimp only at hc
      subst hc
      cases hr : readLines lrs with
      | error e => unfold grepRun; dsimp only; rw [hr]
      | ok lines =>
        unfold grepRun
        dsimp only
        rw [hr]
        rfl

/-- Witness for C8: on lines `["x","y"]` with pattern `"x"` and `-c`, the
output is exactly the count entry, and that count is 1. -/
theorem c8_count_mode_witness :
    (grepRun (some [some "x", some "y"]) "x"
        { defaultOptions with count := true }).1
      = [OutputLine.count (matchingLines { defaultOptions with count := true }
          "x" ["x", "y"]).length] ∧
    (matchingLines { defaultOptions with count := true }
        "x" ["x", "y"]).length = 1 :=
  ⟨(c8_count_mode [some "x", some "y"] "x"
      { defaultOptions with count := true } rfl).1 ["x", "y"] rfl,
   by decide⟩

/-- C9: every run that ends in a fatal error (unopenable source or a line
that fails to decode; the escaped pattern always compiles) produces no
output at all before aborting. -/
theorem c9_no_output_on_fatal_error (src : Option (List (Option String)))
    (p : String) (opts : Options) (e : GrepError)
    (h : (grepRun src p opts).2 = RunStatus.err e) :
    (grepRun src p opts).1 = [] := by
  cases src with
  | none => rfl
  | some lrs =>
    cases hr : readLines lrs with
    | error e2 => simp [grepRun, hr]
    | ok lines =>
      exfalso
      unfold grepRun at h
      dsimp only at h
      rw [hr] at h
      by_cases hc : opts.count = true
      · simp [hc] at h
      · simp [hc] at h
        cases hb : (emitHits opts (matchingLines opts p lines)
            (matchingLines opts p lines)).2 <;> simp [hb] at h

/-- Witness for C9: an unopenable source aborts with `sourceUnavailable`
and an empty output trace. -/
theorem c9_no_output_witness :
    (grepRun none "x" defaultOptions).2
      = RunStatus.err GrepError.sourceUnavailable ∧
    (grepRun none "x" defaultOptions).1 = [] :=
  ⟨rfl, c9_no_output_on_fatal_error none "x" defaultOptions
    GrepError.sourceUnavailable rfl⟩

/-- C10: the empty pattern matches every line in both fixed and pattern
mode, so without inversion every enumerated line is a hit and with
inversion the hit set is empty. -/
theorem c10_empty_pattern_matches_every_line (opts : Options)
    (lines : List String) (l : String) :
    matchedLine opts "" l = true ∧
    matchingLines { opts with invert := false } "" lines = lines.enum ∧
    matchingLines { opts with invert := true } "" lines = [] := by
  refine ⟨matchedLine_empty opts l, ?_, ?_⟩
  · apply List.filter_eq_self.mpr
    intro e _
    simp [hitDecision, matchedLine_empty]
  · apply List.filter_eq_nil_iff.mpr
    intro e _
    simp [hitDecision, matchedLine_empty]
